import Mathlib

/-!
Verification of the Weather-RSS-Feed-Application backend against its
natural-language specification.

The development shallowly embeds the relevant parts of the Python source
(src/backend/fetcher.py, src/backend/database.py, src/backend/scheduler.py):
pure functions become Lean functions, the SQLite tables become explicit list
states, and the fetch/parse pipeline becomes a function of an explicit input
describing the outcome of the external network/XML/RSS layers.  Machine
details that cannot affect any claim (SHA-256 digests, wall-clock readings)
are modelled by injective/explicit stand-ins, each noted at its definition.
-/

namespace WeatherApp

/-- Data quality assessment levels (fetcher.py, class DataQuality).
`PARTIAL` is rendered `partialQuality` because `partial` is a Lean keyword. -/
inductive DataQuality where
  | valid
  | stale
  | partialQuality
  | invalid
  | unavailable
deriving DecidableEq, Repr

/-- Embedding of `ANMFetcher._assess_quality` (fetcher.py lines 571-581).
The Python comparison `valid >= total * 0.5` multiplies a nonnegative int by
the float 0.5, which is exact for all realistic counts, so it is embedded as
the exact rational comparison. -/
def assess_quality (valid total : Nat) : DataQuality :=
  if total = 0 then DataQuality.unavailable
  else if valid = 0 then DataQuality.invalid
  else if valid = total then DataQuality.valid
  else if (valid : ℚ) ≥ (total : ℚ) * (1 / 2) then DataQuality.partialQuality
  else DataQuality.invalid

end WeatherApp

namespace WeatherApp

/-- C1: the quality assessor is the stated pure function of (valid, total):
unavailable when total = 0; invalid when total > 0 and valid = 0; valid when
valid = total > 0; partial when 0 < valid < total and valid ≥ total·0.5;
invalid when 0 < valid < total·0.5. -/
theorem assess_quality_cases (valid total : Nat) (h : valid ≤ total) :
    (total = 0 → assess_quality valid total = DataQuality.unavailable) ∧
    (total > 0 → valid = 0 → assess_quality valid total = DataQuality.invalid) ∧
    (valid = total → total > 0 → assess_quality valid total = DataQuality.valid) ∧
    (0 < valid → valid < total → (valid : ℚ) ≥ (total : ℚ) * (1 / 2) →
      assess_quality valid total = DataQuality.partialQuality) ∧
    (0 < valid → (valid : ℚ) < (total : ℚ) * (1 / 2) →
      assess_quality valid total = DataQuality.invalid) := by
  refine ⟨?_, ?_, ?_, ?_, ?_⟩
  · intro ht; simp [assess_quality, ht]
  · intro ht hv; simp [assess_quality, hv, Nat.pos_iff_ne_zero.mp ht]
  · intro hv ht
    simp [assess_quality, hv, Nat.pos_iff_ne_zero.mp ht]
  · intro hv hlt hge
    have ht : total ≠ 0 := by omega
    have hv0 : valid ≠ 0 := by omega
    have hne : valid ≠ total := by omega
    simp only [assess_quality, ht, hv0, hne, if_false, ite_false]
    rw [if_pos hge]
  · intro hv hlt
    have ht : total ≠ 0 := by
      rintro rfl
      have h0 : (0 : ℚ) ≤ (valid : ℚ) := Nat.cast_nonneg valid
      push_cast at hlt
      linarith
    have hv0 : valid ≠ 0 := by omega
    have hne : valid ≠ total := by
      rintro rfl
      have h0 : (0 : ℚ) < (valid : ℚ) := by exact_mod_cast hv
      linarith
    have hnge : ¬ ((valid : ℚ) ≥ (total : ℚ) * (1 / 2)) := not_le.mpr hlt
    simp only [assess_quality, ht, hv0, hne, if_false, ite_false]
    rw [if_neg hnge]

/-- Concrete instances of C1 exercising each branch of `assess_quality_cases`. -/
theorem assess_quality_cases_witness :
    (0 : Nat) ≤ 0 ∧ assess_quality 0 0 = DataQuality.unavailable ∧
    assess_quality 0 4 = DataQuality.invalid ∧
    assess_quality 4 4 = DataQuality.valid ∧
    assess_quality 2 4 = DataQuality.partialQuality ∧
    assess_quality 1 4 = DataQuality.invalid := by
  refine ⟨by decide, ?_, ?_, ?_, ?_, ?_⟩
  · exact (assess_quality_cases 0 0 (by decide)).1 rfl
  · exact (assess_quality_cases 0 4 (by decide)).2.1 (by decide) rfl
  · exact (assess_quality_cases 4 4 (by decide)).2.2.1 rfl (by decide)
  · exact (assess_quality_cases 2 4 (by decide)).2.2.2.1 (by decide) (by decide)
      (by norm_num)
  · exact (assess_quality_cases 1 4 (by decide)).2.2.2.2 (by decide) (by norm_num)

end WeatherApp

namespace WeatherApp

/-! ## Database model (database.py)

The SQLite tables are embedded as explicit list states.  `city_forecasts` has
an AUTOINCREMENT primary key, modelled by an `id` field drawn from a `nextId`
counter carried in the table state. -/

/-- One row of the `city_forecasts` table (database.py, `_init_schema`). -/
structure ForecastRow where
  id : Nat
  city : String
  forecast_date : String
  data_date : String
  temp_min : Int
  temp_max : Int
  conditions : String
  conditions_code : String
  source_url : String
  content_hash : String
  fetched_at : String
deriving DecidableEq, Repr

/-- The `city_forecasts` table: its rows plus the AUTOINCREMENT counter. -/
structure ForecastTable where
  rows : List ForecastRow
  nextId : Nat
deriving DecidableEq, Repr

/-- Field values passed to `Database.insert_forecast`. -/
structure ForecastData where
  city : String
  forecast_date : String
  data_date : String
  temp_min : Int
  temp_max : Int
  conditions : String
  conditions_code : String
  source_url : String
  content_hash : String
deriving DecidableEq, Repr

/-- The row built by the INSERT of `insert_forecast`, with primary key `id`
and `fetched_at` filled from the DEFAULT datetime clock `now`. -/
def forecastRowOf (d : ForecastData) (id : Nat) (now : String) : ForecastRow :=
  { id := id
    city := d.city
    forecast_date := d.forecast_date
    data_date := d.data_date
    temp_min := d.temp_min
    temp_max := d.temp_max
    conditions := d.conditions
    conditions_code := d.conditions_code
    source_url := d.source_url
    content_hash := d.content_hash
    fetched_at := now }

/-- Embedding of `Database.insert_forecast` (database.py lines 137-168):
DELETE of every row matching (city, forecast_date), then INSERT of the new
row.  The connection is in autocommit mode (isolation_level=None), so the
DELETE persists even if the INSERT were rejected; the INSERT is rejected
(sqlite3 error, returning False) only on a UNIQUE(city, forecast_date,
content_hash) violation. -/
def insert_forecast (t : ForecastTable) (d : ForecastData) (now : String) :
    Bool × ForecastTable :=
  let kept := t.rows.filter
    (fun r => !(r.city == d.city && r.forecast_date == d.forecast_date))
  if kept.any (fun r => r.city == d.city && r.forecast_date == d.forecast_date
      && r.content_hash == d.content_hash) then
    (false, { rows := kept, nextId := t.nextId })
  else
    (true, { rows := kept ++ [forecastRowOf d t.nextId now],
             nextId := t.nextId + 1 })

/-- One row of the `weather_alerts` table (database.py, `_init_schema`),
whose `content_hash` column carries a UNIQUE constraint. -/
structure AlertRow where
  title : String
  description : String
  published_at : Option String
  link : Option String
  alert_level : Option String
  affected_zones : Option String
  time_range : Option String
  source_url : String
  content_hash : String
  is_active : Bool
deriving DecidableEq, Repr

/-- Field values passed to `Database.insert_alert`. -/
structure AlertData where
  title : String
  description : String
  published_at : Option String
  link : Option String
  alert_level : Option String
  affected_zones : Option String
  time_range : Option String
  source_url : String
  content_hash : String
deriving DecidableEq, Repr

/-- Whether some row of the alert table already carries this fingerprint. -/
def hashPresent (rows : List AlertRow) (h : String) : Bool :=
  rows.any (fun r => r.content_hash == h)

/-- Embedding of `Database.insert_alert` (database.py lines 204-231):
`INSERT OR IGNORE` guarded by the UNIQUE content_hash constraint, returning
`changes() > 0`. -/
def insert_alert (rows : List AlertRow) (d : AlertData) :
    Bool × List AlertRow :=
  let newRow : AlertRow :=
    { title := d.title
      description := d.description
      published_at := d.published_at
      link := d.link
      alert_level := d.alert_level
      affected_zones := d.affected_zones
      time_range := d.time_range
      source_url := d.source_url
      content_hash := d.content_hash
      is_active := true }
  if hashPresent rows d.content_hash then (false, rows)
  else (true, rows ++ [newRow])

/-- The alert-ingestion loop of `WeatherScheduler._fetch_alerts`
(scheduler.py lines 183-196): insert each alert, counting the
newly inserted rows as `entries_added`. -/
def ingest_alerts (payload : List AlertData) (rows : List AlertRow) :
    Nat × List AlertRow :=
  match payload with
  | [] => (0, rows)
  | d :: rest =>
    let r1 := insert_alert rows d
    let r2 := ingest_alerts rest r1.2
    ((if r1.1 then 1 else 0) + r2.1, r2.2)

end WeatherApp

namespace WeatherApp

/-- Whether a forecast row matches the (city, forecast_date) key of `d`. -/
def matchesKey (d : ForecastData) (r : ForecastRow) : Bool :=
  r.city == d.city && r.forecast_date == d.forecast_date

/-- The UNIQUE-violation probe of `insert_forecast` can never fire: all rows
with the incoming (city, forecast_date) key were just deleted. -/
theorem insert_forecast_no_conflict (t : ForecastTable) (d : ForecastData) :
    ((t.rows.filter
        (fun r => !(r.city == d.city && r.forecast_date == d.forecast_date))).any
      (fun r => r.city == d.city && r.forecast_date == d.forecast_date
        && r.content_hash == d.content_hash)) = false := by
  rw [List.any_eq_false]
  intro r hr
  have hk := (List.mem_filter.mp hr).2
  simp only [Bool.not_eq_true'] at hk
  simp [hk]

/-- Because the conflict probe can never fire, `insert_forecast` always takes
the successful branch: delete the key's rows, append the new row. -/
theorem insert_forecast_result (t : ForecastTable) (d : ForecastData)
    (now : String) :
    insert_forecast t d now =
      (true,
        { rows := t.rows.filter (fun r => !(matchesKey d r))
            ++ [forecastRowOf d t.nextId now],
          nextId := t.nextId + 1 }) := by
  have hcond := insert_forecast_no_conflict t d
  simp only [insert_forecast]
  rw [hcond]
  simp [matchesKey]

/-- C2: a call to `insert_forecast` always returns True; afterwards exactly
one row exists in `city_forecasts` for the (city, forecast_date) key — the
newly inserted one — and every prior row for that key is physically deleted,
with no condition on the content hash (identical hashes included).  The
hypothesis is the AUTOINCREMENT invariant: existing ids are below `nextId`. -/
theorem insert_forecast_replaces (t : ForecastTable) (d : ForecastData)
    (now : String) (hinv : ∀ r ∈ t.rows, r.id < t.nextId) :
    (insert_forecast t d now).1 = true ∧
    (insert_forecast t d now).2.rows.filter (matchesKey d)
      = [forecastRowOf d t.nextId now] ∧
    ∀ r ∈ t.rows, matchesKey d r = true →
      r ∉ (insert_forecast t d now).2.rows := by
  rw [insert_forecast_result]
  refine ⟨rfl, ?_, ?_⟩
  · rw [List.filter_append]
    have h1 : (t.rows.filter (fun r => !(matchesKey d r))).filter (matchesKey d)
        = [] := by
      rw [List.filter_eq_nil_iff]
      intro r hr
      have hk := (List.mem_filter.mp hr).2
      simp only [Bool.not_eq_true'] at hk
      simp [hk]
    rw [h1]
    have h2 : matchesKey d (forecastRowOf d t.nextId now) = true := by
      simp [matchesKey, forecastRowOf]
    simp [h2]
  · intro r hr hkey hmem
    simp only [List.mem_append] at hmem
    rcases hmem with hmem | hmem
    · have hk := (List.mem_filter.mp hmem).2
      rw [hkey] at hk
      simp at hk
    · have heq : r = forecastRowOf d t.nextId now := by simpa using hmem
      have hid := hinv r hr
      rw [heq] at hid
      simp [forecastRowOf] at hid

/-- Concrete instance of C2: the table starts with a row for the same
(city, date) key carrying the *identical* content hash; the insert still
returns True, leaves exactly one (new) row for the key, and the prior row
is gone. -/
theorem insert_forecast_replaces_witness :
    (∀ r ∈ ({ rows := [forecastRowOf
        ⟨"Cluj", "2024-01-02", "2024-01-01", 1, 9, "Rain", "r", "u", "h1"⟩
        0 "t0"], nextId := 1 } : ForecastTable).rows, r.id < 1) ∧
    ((insert_forecast
        { rows := [forecastRowOf
          ⟨"Cluj", "2024-01-02", "2024-01-01", 1, 9, "Rain", "r", "u", "h1"⟩
          0 "t0"], nextId := 1 }
        ⟨"Cluj", "2024-01-02", "2024-01-01", 1, 9, "Rain", "r", "u", "h1"⟩
        "t1").1 = true ∧
      (insert_forecast
        { rows := [forecastRowOf
          ⟨"Cluj", "2024-01-02", "2024-01-01", 1, 9, "Rain", "r", "u", "h1"⟩
          0 "t0"], nextId := 1 }
        ⟨"Cluj", "2024-01-02", "2024-01-01", 1, 9, "Rain", "r", "u", "h1"⟩
        "t1").2.rows.filter
          (matchesKey ⟨"Cluj", "2024-01-02", "2024-01-01", 1, 9, "Rain", "r", "u", "h1"⟩)
        = [forecastRowOf
            ⟨"Cluj", "2024-01-02", "2024-01-01", 1, 9, "Rain", "r", "u", "h1"⟩
            1 "t1"]) := by
  constructor
  · intro r hr
    simp only [List.mem_singleton] at hr
    rw [hr]
    decide
  · have T := insert_forecast_replaces
      { rows := [forecastRowOf
        ⟨"Cluj", "2024-01-02", "2024-01-01", 1, 9, "Rain", "r", "u", "h1"⟩
        0 "t0"], nextId := 1 }
      ⟨"Cluj", "2024-01-02", "2024-01-01", 1, 9, "Rain", "r", "u", "h1"⟩
      "t1"
      (by intro r hr
          simp only [List.mem_singleton] at hr
          rw [hr]
          decide)
    exact ⟨T.1, T.2.1⟩

end WeatherApp

namespace WeatherApp

/-- Inserting an alert never removes a fingerprint already in the table. -/
theorem hashPresent_insert_mono (rows : List AlertRow) (d : AlertData)
    (h : String) (hp : hashPresent rows h = true) :
    hashPresent (insert_alert rows d).2 h = true := by
  cases hc : hashPresent rows d.content_hash with
  | true => simpa [insert_alert, hc] using hp
  | false =>
    simp only [insert_alert, hc, Bool.false_eq_true, if_false]
    simp only [hashPresent, List.any_append, Bool.or_eq_true] at hp ⊢
    exact Or.inl hp

/-- After inserting an alert, its fingerprint is present. -/
theorem hashPresent_insert_self (rows : List AlertRow) (d : AlertData) :
    hashPresent (insert_alert rows d).2 d.content_hash = true := by
  cases hc : hashPresent rows d.content_hash with
  | true => simp [insert_alert, hc]
  | false =>
    simp only [insert_alert, hc, Bool.false_eq_true, if_false]
    simp [hashPresent]

/-- Ingesting a payload never removes a fingerprint already in the table. -/
theorem hashPresent_ingest_mono (payload : List AlertData)
    (rows : List AlertRow) (h : String) (hp : hashPresent rows h = true) :
    hashPresent (ingest_alerts payload rows).2 h = true := by
  induction payload generalizing rows with
  | nil => exact hp
  | cons d rest ih =>
    simp only [ingest_alerts]
    exact ih _ (hashPresent_insert_mono rows d h hp)

/-- After ingesting a payload, every alert of the payload has its fingerprint
in the table. -/
theorem ingest_all_present (payload : List AlertData) (rows : List AlertRow) :
    ∀ d ∈ payload,
      hashPresent (ingest_alerts payload rows).2 d.content_hash = true := by
  induction payload generalizing rows with
  | nil => intro d hd; cases hd
  | cons d0 rest ih =>
    intro d hd
    rcases List.mem_cons.mp hd with rfl | hd
    · simp only [ingest_alerts]
      exact hashPresent_ingest_mono rest _ _ (hashPresent_insert_self rows d)
    · simp only [ingest_alerts]
      exact ih _ d hd

/-- Ingesting a payload whose fingerprints are all already present adds
nothing and changes nothing. -/
theorem ingest_present_zero (payload : List AlertData) (rows : List AlertRow)
    (hall : ∀ d ∈ payload, hashPresent rows d.content_hash = true) :
    ingest_alerts payload rows = (0, rows) := by
  induction payload with
  | nil => rfl
  | cons d0 rest ih =>
    have h0 : hashPresent rows d0.content_hash = true :=
      hall d0 (List.mem_cons_self d0 rest)
    have hrest : ∀ d ∈ rest, hashPresent rows d.content_hash = true :=
      fun d hd => hall d (List.mem_cons_of_mem d0 hd)
    simp only [ingest_alerts, insert_alert, h0, if_true]
    rw [ih hrest]
    simp

/-- C3: with an unseen fingerprint `insert_alert` inserts and returns True;
any call while the fingerprint is present returns False and leaves
`weather_alerts` unchanged; the fingerprint is present right after a
successful insert; and re-ingesting any payload a second time yields
`entries_added` = 0. -/
theorem insert_alert_dedup (rows : List AlertRow) (d : AlertData)
    (h : hashPresent rows d.content_hash = false) :
    (insert_alert rows d).1 = true ∧
    (∀ rows2, hashPresent rows2 d.content_hash = true →
      insert_alert rows2 d = (false, rows2)) ∧
    hashPresent (insert_alert rows d).2 d.content_hash = true ∧
    (∀ payload st,
      (ingest_alerts payload (ingest_alerts payload st).2).1 = 0) := by
  refine ⟨?_, ?_, hashPresent_insert_self rows d, ?_⟩
  · simp [insert_alert, h]
  · intro rows2 h2
    simp [insert_alert, h2]
  · intro payload st
    rw [ingest_present_zero payload (ingest_alerts payload st).2
      (ingest_all_present payload st)]

/-- Concrete instance of C3: first insert of a fresh alert returns True, the
second identical insert returns False and leaves the table unchanged, and
re-ingesting the one-alert payload yields entries_added = 0. -/
theorem insert_alert_dedup_witness :
    hashPresent []
      (⟨"T", "D", none, none, none, none, none, "u", "h1"⟩ : AlertData).content_hash
      = false ∧
    (insert_alert [] ⟨"T", "D", none, none, none, none, none, "u", "h1"⟩).1
      = true ∧
    insert_alert
        (insert_alert [] ⟨"T", "D", none, none, none, none, none, "u", "h1"⟩).2
        ⟨"T", "D", none, none, none, none, none, "u", "h1"⟩
      = (false,
        (insert_alert [] ⟨"T", "D", none, none, none, none, none, "u", "h1"⟩).2) ∧
    (ingest_alerts [⟨"T", "D", none, none, none, none, none, "u", "h1"⟩]
        (ingest_alerts [⟨"T", "D", none, none, none, none, none, "u", "h1"⟩]
          []).2).1 = 0 := by
  have T := insert_alert_dedup []
    ⟨"T", "D", none, none, none, none, none, "u", "h1"⟩ rfl
  exact ⟨rfl, T.1, T.2.1 _ T.2.2.1, T.2.2.2 _ []⟩

end WeatherApp

namespace WeatherApp

/-! ## Source health tracker (database.py, `update_source_status`) -/

/-- One row of the `source_status` table.  The row stores only the raw
counters; no reliability column exists — reliability is derived at read time
by `get_system_status` (see `reliability_percent`). -/
structure SourceStatusRow where
  source_url : String
  source_type : String
  source_name : String
  last_fetch_at : String
  last_success_at : Option String
  fetch_count : Nat
  success_count : Nat
  error_count : Nat
  last_error : Option String
  status : String
  data_quality : String
  is_fresh : Bool
  avg_response_time_ms : Nat
  last_response_time_ms : Nat
  consecutive_failures : Nat
  entries_count : Nat
deriving DecidableEq, Repr

/-- Embedding of `Database.update_source_status` (database.py lines 277-346):
upsert of the per-source health row.  `existing` is the row found by the
SELECT (None on first contact); `now` is the `datetime.utcnow()` reading.
Python's `int(...)` on the nonnegative running-average expression truncates
toward zero, which on nonnegative operands is `Nat` division. -/
def update_source_status (existing : Option SourceStatusRow)
    (source_url source_type source_name now : String) (success : Bool)
    (data_quality : String) (is_fresh : Bool) (entries_count : Nat)
    (error_message : Option String) (response_time_ms : Nat) :
    SourceStatusRow :=
  let status := if success then "ok" else "error"
  match existing with
  | some old =>
    let fetch_count := old.fetch_count
    let new_avg :=
      if fetch_count > 0 then
        (old.avg_response_time_ms * fetch_count + response_time_ms)
          / (fetch_count + 1)
      else response_time_ms
    let consecutive_failures :=
      if success then 0 else old.consecutive_failures + 1
    { source_url := old.source_url
      source_type := source_type
      source_name := source_name
      last_fetch_at := now
      last_success_at := if success then some now else old.last_success_at
      fetch_count := old.fetch_count + 1
      success_count := old.success_count + (if success then 1 else 0)
      error_count := old.error_count + (if success then 0 else 1)
      last_error := if success then none else error_message
      status := status
      data_quality := data_quality
      is_fresh := is_fresh
      avg_response_time_ms := new_avg
      last_response_time_ms := response_time_ms
      consecutive_failures := consecutive_failures
      entries_count := entries_count }
  | none =>
    { source_url := source_url
      source_type := source_type
      source_name := source_name
      last_fetch_at := now
      last_success_at := if success then some now else none
      fetch_count := 1
      success_count := if success then 1 else 0
      error_count := if success then 0 else 1
      last_error := error_message
      status := status
      data_quality := data_quality
      is_fresh := is_fresh
      avg_response_time_ms := response_time_ms
      last_response_time_ms := response_time_ms
      consecutive_failures := if success then 0 else 1
      entries_count := entries_count }

/-- The read-time derived reliability of `Database.get_system_status`
(database.py lines 348-363):
`ROUND(CAST(success_count AS FLOAT) / fetch_count * 100, 1)` when
`fetch_count > 0`, else 0.  SQLite ROUND-half-away-from-zero agrees with
Mathlib `round` on these nonnegative values. -/
def reliability_percent (r : SourceStatusRow) : ℚ :=
  if r.fetch_count > 0 then
    (round ((r.success_count : ℚ) / (r.fetch_count : ℚ) * 100 * 10) : ℤ) / 10
  else 0

end WeatherApp

namespace WeatherApp

/-- C4: from no row, one failed fetch then one successful fetch yield
fetch_count = 2, success_count = 1, error_count = 1,
consecutive_failures = 0, and the read-time derived reliability is 50.
(The stored row has no reliability field at all: `SourceStatusRow` carries
only the counters, and `reliability_percent` is computed from them.) -/
theorem update_source_status_one_fail_one_success
    (url tp name t1 t2 : String) (q1 q2 : String) (f1 f2 : Bool)
    (e1 e2 : Nat) (err : Option String) (rt1 rt2 : Nat) :
    (update_source_status
      (some (update_source_status none url tp name t1 false q1 f1 e1 err rt1))
      url tp name t2 true q2 f2 e2 none rt2).fetch_count = 2 ∧
    (update_source_status
      (some (update_source_status none url tp name t1 false q1 f1 e1 err rt1))
      url tp name t2 true q2 f2 e2 none rt2).success_count = 1 ∧
    (update_source_status
      (some (update_source_status none url tp name t1 false q1 f1 e1 err rt1))
      url tp name t2 true q2 f2 e2 none rt2).error_count = 1 ∧
    (update_source_status
      (some (update_source_status none url tp name t1 false q1 f1 e1 err rt1))
      url tp name t2 true q2 f2 e2 none rt2).consecutive_failures = 0 ∧
    reliability_percent (update_source_status
      (some (update_source_status none url tp name t1 false q1 f1 e1 err rt1))
      url tp name t2 true q2 f2 e2 none rt2) = 50 := by
  have h1 : (update_source_status
      (some (update_source_status none url tp name t1 false q1 f1 e1 err rt1))
      url tp name t2 true q2 f2 e2 none rt2).fetch_count = 2 := rfl
  have h2 : (update_source_status
      (some (update_source_status none url tp name t1 false q1 f1 e1 err rt1))
      url tp name t2 true q2 f2 e2 none rt2).success_count = 1 := rfl
  refine ⟨h1, h2, rfl, rfl, ?_⟩
  rw [reliability_percent, if_pos (by rw [h1]; norm_num)]
  rw [h1, h2]
  norm_num

/-- C9: fetch_count = success_count + error_count is established by the
initial insert of `update_source_status` and preserved by every update,
because each call increments fetch_count by 1 and exactly one of
success_count/error_count by 1, for both outcomes. -/
theorem update_source_status_counter_invariant
    (url tp name now : String) (success : Bool) (q : String) (fresh : Bool)
    (ec : Nat) (err : Option String) (rt : Nat) (old : SourceStatusRow)
    (hold : old.fetch_count = old.success_count + old.error_count) :
    ((update_source_status none url tp name now success q fresh ec err
        rt).fetch_count
      = (update_source_status none url tp name now success q fresh ec err
          rt).success_count
        + (update_source_status none url tp name now success q fresh ec err
            rt).error_count) ∧
    ((update_source_status (some old) url tp name now success q fresh ec err
        rt).fetch_count
      = (update_source_status (some old) url tp name now success q fresh ec
          err rt).success_count
        + (update_source_status (some old) url tp name now success q fresh ec
            err rt).error_count) := by
  constructor
  · cases success <;> simp [update_source_status]
  · cases success <;> simp [update_source_status] <;> omega

/-- Concrete instance of C9: the invariant after an initial failed insert and
after a subsequent successful update of a row already satisfying it. -/
theorem update_source_status_counter_invariant_witness :
    (({ source_url := "u", source_type := "forecast", source_name := "n",
        last_fetch_at := "t", last_success_at := none, fetch_count := 3,
        success_count := 2, error_count := 1, last_error := none,
        status := "ok", data_quality := "valid", is_fresh := true,
        avg_response_time_ms := 5, last_response_time_ms := 5,
        consecutive_failures := 0,
        entries_count := 7 } : SourceStatusRow).fetch_count = 3 ∧
      (3 : Nat) = 2 + 1) ∧
    (update_source_status none "u" "forecast" "n" "t" false "unavailable"
        false 0 (some "boom") 0).fetch_count
      = (update_source_status none "u" "forecast" "n" "t" false "unavailable"
          false 0 (some "boom") 0).success_count
        + (update_source_status none "u" "forecast" "n" "t" false
            "unavailable" false 0 (some "boom") 0).error_count ∧
    (update_source_status
        (some { source_url := "u", source_type := "forecast",
                source_name := "n", last_fetch_at := "t",
                last_success_at := none, fetch_count := 3, success_count := 2,
                error_count := 1, last_error := none, status := "ok",
                data_quality := "valid", is_fresh := true,
                avg_response_time_ms := 5, last_response_time_ms := 5,
                consecutive_failures := 0, entries_count := 7 })
        "u" "forecast" "n" "t2" true "valid" true 9 none 4).fetch_count
      = (update_source_status
          (some { source_url := "u", source_type := "forecast",
                  source_name := "n", last_fetch_at := "t",
                  last_success_at := none, fetch_count := 3,
                  success_count := 2, error_count := 1, last_error := none,
                  status := "ok", data_quality := "valid", is_fresh := true,
                  avg_response_time_ms := 5, last_response_time_ms := 5,
                  consecutive_failures := 0, entries_count := 7 })
          "u" "forecast" "n" "t2" true "valid" true 9 none 4).success_count
        + (update_source_status
            (some { source_url := "u", source_type := "forecast",
                    source_name := "n", last_fetch_at := "t",
                    last_success_at := none, fetch_count := 3,
                    success_count := 2, error_count := 1, last_error := none,
                    status := "ok", data_quality := "valid", is_fresh := true,
                    avg_response_time_ms := 5, last_response_time_ms := 5,
                    consecutive_failures := 0, entries_count := 7 })
            "u" "forecast" "n" "t2" true "valid" true 9 none 4).error_count := by
  have T := update_source_status_counter_invariant "u" "forecast" "n" "t2"
    true "valid" true 9 none 4
    { source_url := "u", source_type := "forecast", source_name := "n",
      last_fetch_at := "t", last_success_at := none, fetch_count := 3,
      success_count := 2, error_count := 1, last_error := none,
      status := "ok", data_quality := "valid", is_fresh := true,
      avg_response_time_ms := 5, last_response_time_ms := 5,
      consecutive_failures := 0, entries_count := 7 }
    rfl
  have T2 := update_source_status_counter_invariant "u" "forecast" "n" "t"
    false "unavailable" false 0 (some "boom") 0
    { source_url := "u", source_type := "forecast", source_name := "n",
      last_fetch_at := "t", last_success_at := none, fetch_count := 3,
      success_count := 2, error_count := 1, last_error := none,
      status := "ok", data_quality := "valid", is_fresh := true,
      avg_response_time_ms := 5, last_response_time_ms := 5,
      consecutive_failures := 0, entries_count := 7 }
    rfl
  exact ⟨⟨rfl, rfl⟩, T2.1, T.2⟩

end WeatherApp

namespace WeatherApp

/-! ## Fetcher configuration constants (fetcher.py lines 32-44) -/

def DEFAULT_TIMEOUT : Nat := 15
def MAX_RETRIES : Nat := 3

/-- Freshness threshold for XML forecasts (hours). -/
def FORECAST_FRESHNESS_HOURS : Nat := 12

/-- Freshness threshold for RSS alerts (hours). -/
def ALERT_FRESHNESS_HOURS : Nat := 1

def ANM_FORECAST_XML_URL : String :=
  "http://www.meteoromania.ro/anm/prognoza-orase-xml.php"

def ANM_ALERTS_RSS_URL : String :=
  "http://www.meteoromania.ro/anm2/avertizari-rss.php"

/-! ## Python string primitives used by the parser -/

/-- The characters of the regex class `\s` and of Python `str.strip()`:
space, tab, newline, carriage return, vertical tab, form feed.  The exotic
Unicode spaces Python would also strip never appear in this feed. -/
def isPySpace (c : Char) : Bool :=
  c == ' ' || c == '\t' || c == '\n' || c == '\r' || c == '\x0b' || c == '\x0c'

/-- Strip leading and trailing whitespace from a character list. -/
def stripChars (cs : List Char) : List Char :=
  ((cs.dropWhile isPySpace).reverse.dropWhile isPySpace).reverse

/-- Python `str.strip()` with no argument. -/
def pyStrip (s : String) : String := String.mk (stripChars s.data)

/-- Value of an ASCII digit string, most significant first. -/
def digitsToNat (cs : List Char) : Nat :=
  cs.foldl (fun n c => n * 10 + (c.toNat - '0'.toNat)) 0

/-- Python `int(s)` on a string, as used by `_parse_forecast_xml`:
strips whitespace, accepts an optional sign followed by one or more ASCII
digits, raises ValueError (here: `none`) otherwise.  Unicode digits and
numeric-literal underscores, which Python would also accept, never occur in
the feed and are not modelled. -/
def pyToInt (s : String) : Option Int :=
  let cs := (pyStrip s).data
  let signDigits : Int × List Char :=
    match cs with
    | '-' :: rest => (-1, rest)
    | '+' :: rest => (1, rest)
    | _ => (1, cs)
  if signDigits.2.isEmpty then none
  else if signDigits.2.all Char.isDigit then
    some (signDigits.1 * (digitsToNat signDigits.2 : Int))
  else none

/-- Does `pat` occur as a contiguous substring (Python `in`)? -/
def hasPrefixCh : List Char → List Char → Bool
  | [], _ => true
  | _ :: _, [] => false
  | c :: cs, d :: ds => c == d && hasPrefixCh cs ds

def hasSubstrCh (pat : List Char) : List Char → Bool
  | [] => pat.isEmpty
  | d :: ds => hasPrefixCh pat (d :: ds) || hasSubstrCh pat ds

def hasSubstr (pat s : String) : Bool := hasSubstrCh pat.toList s.toList

/-- Python `str.upper()` restricted to ASCII; the lookup keys of the
translation table are ASCII. -/
def upperAscii (s : String) : String := String.mk (s.toList.map Char.toUpper)

/-- Python `str.title()` restricted to ASCII: uppercase a letter that
follows a non-letter, lowercase every other letter. -/
def titleCaseGo : Bool → List Char → List Char
  | _, [] => []
  | prevAlpha, c :: t =>
    if c.isAlpha then
      (if prevAlpha then c.toLower else c.toUpper) :: titleCaseGo true t
    else c :: titleCaseGo false t

def titleCase (s : String) : String := String.mk (titleCaseGo false s.toList)

/-! ## Condition translation (fetcher.py, `_translate_conditions`) -/

/-- The Romanian → English table, in Python dict insertion order. -/
def translationTable : List (String × String) :=
  [("CER SENIN", "Clear Sky"),
   ("CER VARIABIL", "Partly Cloudy"),
   ("CER PARTIAL NOROS", "Partly Cloudy"),
   ("CER MAI MULT NOROS", "Mostly Cloudy"),
   ("CER NOROS", "Cloudy"),
   ("INNNORAT", "Overcast"),
   ("PLOAIE SLABA", "Light Rain"),
   ("PLOAIE", "Rain"),
   ("PLOAIE MODERATA", "Moderate Rain"),
   ("PLOI", "Rainy"),
   ("AVERSE", "Showers"),
   ("FURTUNA", "Thunderstorm"),
   ("NINSOARE SLABA", "Light Snow"),
   ("NINSOARE", "Snow"),
   ("NINSOARE MODERATA", "Moderate Snow"),
   ("LAPOVITA", "Sleet"),
   ("CEATA", "Fog"),
   ("BURNITA", "Drizzle")]

/-- Embedding of `ANMFetcher._translate_conditions` (fetcher.py 342-380). -/
def translate_conditions (romanian : String) : String :=
  if romanian = "" then "Unknown"
  else
    let romanian_upper := upperAscii romanian
    let result_parts := translationTable.filterMap
      (fun p => if hasSubstr p.1 romanian_upper then some p.2 else none)
    if result_parts.isEmpty then titleCase romanian
    else String.intercalate ", " result_parts

/-- The SHA-256 digest of `ANMFetcher._compute_hash` is modelled by its
"|"-joined preimage: the claims depend only on equal inputs giving equal
hashes (true of both) and distinct inputs giving distinct hashes (an
assumption of SHA-256 use, exact for the preimage). -/
def compute_hash (args : List String) : String := String.intercalate "|" args

/-! ## Forecast XML document model (fetcher.py, `_parse_forecast_xml`)

A well-formed ANM document is a list of `localitate` elements; each carries a
`nume` attribute, a `DataPrognozei` child and `prognoza` children.  Missing
attributes/children surface as the empty string, exactly as
`Element.get(·, "")` / `findtext(·, "")` do. -/

structure Prognoza where
  data : String
  temp_min : String
  temp_max : String
  fenomen_descriere : String
  fenomen_simbol : String
deriving DecidableEq, Repr

structure Localitate where
  nume : String
  dataPrognozei : String
  prognoze : List Prognoza
deriving DecidableEq, Repr

/-- The parsed forecast record (fetcher.py, dataclass CityForecast).  The
`fetched_at` default-clock field plays no role in any claim and is omitted. -/
structure CityForecast where
  city : String
  forecast_date : String
  data_date : String
  temp_min : Int
  temp_max : Int
  conditions : String
  conditions_code : String
  source_url : String
  content_hash : String
deriving DecidableEq, Repr

/-- The body of the per-entry loop of `_parse_forecast_xml` (lines 293-334):
`none` models the `continue` on a missing field or a ValueError from `int`. -/
def parse_prognoza (city_name data_prognozei : String) (p : Prognoza) :
    Option CityForecast :=
  let forecast_date := p.data
  let temp_min_text := p.temp_min
  let temp_max_text := p.temp_max
  let conditions := p.fenomen_descriere
  if forecast_date = "" || temp_min_text = "" || temp_max_text = "" then none
  else
    match pyToInt temp_min_text, pyToInt temp_max_text with
    | some temp_min, some temp_max =>
      some { city := city_name
             forecast_date := forecast_date
             data_date := data_prognozei
             temp_min := temp_min
             temp_max := temp_max
             conditions := translate_conditions conditions
             conditions_code := p.fenomen_simbol
             source_url := ANM_FORECAST_XML_URL
             content_hash := compute_hash [city_name, forecast_date,
               toString temp_min, toString temp_max, conditions] }
    | _, _ => none

/-- The inner `for prognoza in localitate.findall("prognoza")` loop with its
(forecasts, valid_count, total_count) accumulators. -/
def parse_prognoze (city_name data_prognozei : String) :
    List Prognoza → List CityForecast × Nat × Nat
  | [] => ([], 0, 0)
  | p :: rest =>
    let acc := parse_prognoze city_name data_prognozei rest
    match parse_prognoza city_name data_prognozei p with
    | some f => (f :: acc.1, acc.2.1 + 1, acc.2.2 + 1)
    | none => (acc.1, acc.2.1, acc.2.2 + 1)

/-- The outer `for localitate in root.findall(".//localitate")` loop of
`_parse_forecast_xml` (lines 283-334): a location whose stripped name is
empty is skipped entirely. -/
def parse_forecast_xml : List Localitate → List CityForecast × Nat × Nat
  | [] => ([], 0, 0)
  | loc :: rest =>
    let tailAcc := parse_forecast_xml rest
    let city_name := pyStrip loc.nume
    if city_name = "" then tailAcc
    else
      let headAcc := parse_prognoze city_name loc.dataPrognozei loc.prognoze
      (headAcc.1 ++ tailAcc.1, headAcc.2.1 + tailAcc.2.1,
       headAcc.2.2 + tailAcc.2.2)

/-- `_parse_forecast_xml` at document level: `ET.fromstring` either yields a
well-formed document or raises ParseError, which the method converts into a
ValidationError; nothing else raises. -/
def parse_forecast_document (input : Except String (List Localitate)) :
    Except String (List CityForecast × Nat × Nat) :=
  match input with
  | Except.error e => Except.error ("XML parsing failed: " ++ e)
  | Except.ok doc => Except.ok (parse_forecast_xml doc)

/-- Spec-side validity of one per-day entry, following the claim's words: it
has a forecast date, and minimum and maximum temperatures parseable as
integers (an absent temperature is the empty string, which `int` rejects). -/
def specEntryValid (p : Prognoza) : Bool :=
  p.data != "" && (pyToInt p.temp_min).isSome && (pyToInt p.temp_max).isSome

end WeatherApp

namespace WeatherApp

/-- A per-day entry yields a record exactly when it satisfies the spec-side
validity predicate. -/
theorem parse_prognoza_isSome (city_name data_prognozei : String)
    (p : Prognoza) :
    (parse_prognoza city_name data_prognozei p).isSome = specEntryValid p := by
  have h0 : pyToInt "" = none := rfl
  simp only [parse_prognoza, specEntryValid]
  by_cases hd : p.data = ""
  · simp [hd]
  · by_cases hmin : p.temp_min = ""
    · simp [hd, hmin, h0]
    · by_cases hmax : p.temp_max = ""
      · simp [hd, hmin, hmax, h0]
      · cases hmi : pyToInt p.temp_min <;> cases hma : pyToInt p.temp_max <;>
          simp [hd, hmin, hmax, hmi, hma]

/-- Counting behaviour of the inner per-day loop. -/
theorem parse_prognoze_counts (city_name data_prognozei : String)
    (ps : List Prognoza) :
    (parse_prognoze city_name data_prognozei ps).2.2 = ps.length ∧
    (parse_prognoze city_name data_prognozei ps).2.1
      = (ps.filter specEntryValid).length ∧
    (parse_prognoze city_name data_prognozei ps).1.length
      = (ps.filter specEntryValid).length := by
  induction ps with
  | nil => exact ⟨rfl, rfl, rfl⟩
  | cons p rest ih =>
    have hs := parse_prognoza_isSome city_name data_prognozei p
    cases hp : parse_prognoza city_name data_prognozei p with
    | some f =>
      have hv : specEntryValid p = true := by rw [← hs, hp]; rfl
      simp only [parse_prognoze, hp, List.filter_cons, hv, if_true,
        List.length_cons]
      exact ⟨by rw [ih.1], by rw [ih.2.1], by rw [ih.2.2]⟩
    | none =>
      have hv : specEntryValid p = false := by rw [← hs, hp]; rfl
      simp only [parse_prognoze, hp, List.filter_cons, hv, Bool.false_eq_true,
        if_false, List.length_cons]
      exact ⟨by rw [ih.1], ih.2.1, ih.2.2⟩

/-- Shape of the outer loop on a skipped (empty-name) location. -/
theorem parse_forecast_xml_cons_skip (loc : Localitate)
    (rest : List Localitate) (hn : pyStrip loc.nume = "") :
    parse_forecast_xml (loc :: rest) = parse_forecast_xml rest := by
  simp [parse_forecast_xml, hn]

/-- Shape of the outer loop on a kept (non-empty-name) location. -/
theorem parse_forecast_xml_cons_keep (loc : Localitate)
    (rest : List Localitate) (hn : ¬ pyStrip loc.nume = "") :
    parse_forecast_xml (loc :: rest)
      = ((parse_prognoze (pyStrip loc.nume) loc.dataPrognozei loc.prognoze).1
           ++ (parse_forecast_xml rest).1,
         (parse_prognoze (pyStrip loc.nume) loc.dataPrognozei
           loc.prognoze).2.1 + (parse_forecast_xml rest).2.1,
         (parse_prognoze (pyStrip loc.nume) loc.dataPrognozei
           loc.prognoze).2.2 + (parse_forecast_xml rest).2.2) := by
  simp [parse_forecast_xml, hn]

/-- C6: the parser's total count is exactly the number of per-day entries
under locations with a non-empty (stripped) name — a location with an empty
or missing name contributes neither totals nor records; the valid count (and
the record-list length) is exactly the number of such entries with a
forecast date and int-parseable min/max temperatures; every invalid entry is
dropped individually (parsing a well-formed document never errors), and a
validation error arises only from a document-level XML parse failure. -/
theorem parse_forecast_xml_counts (doc : List Localitate) :
    (parse_forecast_xml doc).2.2
      = ((doc.filter (fun l => pyStrip l.nume != "")).map
          (fun l => l.prognoze.length)).sum ∧
    (parse_forecast_xml doc).2.1
      = ((doc.filter (fun l => pyStrip l.nume != "")).map
          (fun l => (l.prognoze.filter specEntryValid).length)).sum ∧
    (parse_forecast_xml doc).1.length = (parse_forecast_xml doc).2.1 ∧
    parse_forecast_document (Except.ok doc)
      = Except.ok (parse_forecast_xml doc) ∧
    (∀ e, parse_forecast_document (Except.error e)
      = Except.error ("XML parsing failed: " ++ e)) := by
  refine ⟨?_, ?_, ?_, rfl, fun e => rfl⟩
  · induction doc with
    | nil => rfl
    | cons loc rest ih =>
      by_cases hn : pyStrip loc.nume = ""
      · have hq : (pyStrip loc.nume != "") = false := by simp [hn]
        rw [parse_forecast_xml_cons_skip loc rest hn]
        simp only [List.filter_cons, hq, Bool.false_eq_true, if_false]
        exact ih
      · have hq : (pyStrip loc.nume != "") = true := by simp [bne_iff_ne, hn]
        rw [parse_forecast_xml_cons_keep loc rest hn]
        simp only [List.filter_cons, hq, if_true, List.map_cons,
          List.sum_cons]
        rw [(parse_prognoze_counts (pyStrip loc.nume) loc.dataPrognozei
          loc.prognoze).1, ih]
  · induction doc with
    | nil => rfl
    | cons loc rest ih =>
      by_cases hn : pyStrip loc.nume = ""
      · have hq : (pyStrip loc.nume != "") = false := by simp [hn]
        rw [parse_forecast_xml_cons_skip loc rest hn]
        simp only [List.filter_cons, hq, Bool.false_eq_true, if_false]
        exact ih
      · have hq : (pyStrip loc.nume != "") = true := by simp [bne_iff_ne, hn]
        rw [parse_forecast_xml_cons_keep loc rest hn]
        simp only [List.filter_cons, hq, if_true, List.map_cons,
          List.sum_cons]
        rw [(parse_prognoze_counts (pyStrip loc.nume) loc.dataPrognozei
          loc.prognoze).2.1, ih]
  · induction doc with
    | nil => rfl
    | cons loc rest ih =>
      by_cases hn : pyStrip loc.nume = ""
      · rw [parse_forecast_xml_cons_skip loc rest hn]
        exact ih
      · rw [parse_forecast_xml_cons_keep loc rest hn]
        simp only [List.length_append]
        have hc := parse_prognoze_counts (pyStrip loc.nume) loc.dataPrognozei
          loc.prognoze
        rw [hc.2.2, hc.2.1, ih]

end WeatherApp

namespace WeatherApp

/-! ## Fetch pipeline model (fetcher.py `fetch_forecasts` / `fetch_alerts`,
scheduler.py `_fetch_forecasts` / `_fetch_alerts`)

The network and document layers are external; a fetch run is modelled by an
explicit input describing their outcome: a classified fetch failure (with the
elapsed wall-clock reading the except-branch takes), a payload rejected by
`_validate_xml_structure` (empty/non-XML/unparseable), or a well-formed
document.  When `_validate_xml_structure` accepts, the second
`ET.fromstring` inside `_parse_forecast_xml` parses the same bytes and
cannot fail. -/

inductive SourceType where
  | forecast
  | alert
deriving DecidableEq, Repr

/-- `DataQuality.value`: the string payload of the Python enum member. -/
def DataQuality.value : DataQuality → String
  | DataQuality.valid => "valid"
  | DataQuality.stale => "stale"
  | DataQuality.partialQuality => "partial"
  | DataQuality.invalid => "invalid"
  | DataQuality.unavailable => "unavailable"

/-- Metadata about a fetch operation (fetcher.py, dataclass FetchMetadata). -/
structure FetchMetadata where
  source_url : String
  source_type : SourceType
  fetch_time : String
  success : Bool
  entries_count : Nat
  valid_entries : Nat
  error_message : Option String
  response_time_ms : Nat
  data_quality : DataQuality
  is_fresh : Bool
  last_modified : Option String
deriving DecidableEq, Repr

/-- Outcome of the external layers for one run of `fetch_forecasts`. -/
inductive ForecastFetchInput where
  | fetchErr (msg : String) (elapsed_ms : Nat)
  | invalidStructure (elapsed_ms : Nat)
  | wellFormed (doc : List Localitate) (response_time_ms : Nat)
deriving DecidableEq, Repr

/-- Whether the run failed before per-entry parsing (fetch failure or
document-level validation failure). -/
def ForecastFetchInput.failed : ForecastFetchInput → Bool
  | ForecastFetchInput.fetchErr _ _ => true
  | ForecastFetchInput.invalidStructure _ => true
  | ForecastFetchInput.wellFormed _ _ => false

/-- Embedding of `ANMFetcher.fetch_forecasts` (fetcher.py lines 190-251).
`now` is the `fetch_start` clock reading. -/
def fetch_forecasts (now : String) :
    ForecastFetchInput → List CityForecast × FetchMetadata
  | ForecastFetchInput.fetchErr msg elapsed =>
    ([], { source_url := ANM_FORECAST_XML_URL
           source_type := SourceType.forecast
           fetch_time := now
           success := false
           entries_count := 0
           valid_entries := 0
           error_message := some msg
           response_time_ms := elapsed
           data_quality := DataQuality.unavailable
           is_fresh := false
           last_modified := none })
  | ForecastFetchInput.invalidStructure elapsed =>
    ([], { source_url := ANM_FORECAST_XML_URL
           source_type := SourceType.forecast
           fetch_time := now
           success := false
           entries_count := 0
           valid_entries := 0
           error_message := some "Invalid XML structure"
           response_time_ms := elapsed
           data_quality := DataQuality.unavailable
           is_fresh := false
           last_modified := none })
  | ForecastFetchInput.wellFormed doc rt =>
    let parsed := parse_forecast_xml doc
    (parsed.1,
     { source_url := ANM_FORECAST_XML_URL
       source_type := SourceType.forecast
       fetch_time := now
       success := true
       entries_count := parsed.2.2
       valid_entries := parsed.2.1
       error_message := none
       response_time_ms := rt
       data_quality := assess_quality parsed.2.1 parsed.2.2
       is_fresh := true
       last_modified := none })

/-- Outcome of the external layers for one run of `fetch_alerts`.  The
per-entry extraction of `_parse_alert_rss` operates on feedparser entries;
each entry's outcome is modelled as `some record` or `none` (a raised and
caught per-entry exception).  `bozoNoEntries` is the branch where feedparser
reports a fatal structural problem and produced no entries. -/
inductive AlertFetchInput where
  | fetchErr (msg : String) (elapsed_ms : Nat)
  | bozoNoEntries (msg : String) (elapsed_ms : Nat)
  | entries (items : List (Option AlertData)) (response_time_ms : Nat)
deriving DecidableEq, Repr

def AlertFetchInput.failed : AlertFetchInput → Bool
  | AlertFetchInput.fetchErr _ _ => true
  | AlertFetchInput.bozoNoEntries _ _ => true
  | AlertFetchInput.entries _ _ => false

/-- The per-entry loop of `_parse_alert_rss` (fetcher.py lines 453-497) with
its (alerts, valid_count, total_count) accumulators.  The parsed
WeatherAlert record carries exactly the fields the scheduler hands to
`insert_alert`, so `AlertData` serves as the record type (its `fetched_at`
default-clock field plays no role in any claim and is omitted). -/
def parse_alert_entries :
    List (Option AlertData) → List AlertData × Nat × Nat
  | [] => ([], 0, 0)
  | it :: rest =>
    let acc := parse_alert_entries rest
    match it with
    | some a => (a :: acc.1, acc.2.1 + 1, acc.2.2 + 1)
    | none => (acc.1, acc.2.1, acc.2.2 + 1)

/-- Embedding of `ANMFetcher.fetch_alerts` (fetcher.py lines 386-440). -/
def fetch_alerts (now : String) :
    AlertFetchInput → List AlertData × FetchMetadata
  | AlertFetchInput.fetchErr msg elapsed =>
    ([], { source_url := ANM_ALERTS_RSS_URL
           source_type := SourceType.alert
           fetch_time := now
           success := false
           entries_count := 0
           valid_entries := 0
           error_message := some msg
           response_time_ms := elapsed
           data_quality := DataQuality.unavailable
           is_fresh := false
           last_modified := none })
  | AlertFetchInput.bozoNoEntries msg elapsed =>
    ([], { source_url := ANM_ALERTS_RSS_URL
           source_type := SourceType.alert
           fetch_time := now
           success := false
           entries_count := 0
           valid_entries := 0
           error_message := some ("RSS parsing failed: " ++ msg)
           response_time_ms := elapsed
           data_quality := DataQuality.unavailable
           is_fresh := false
           last_modified := none })
  | AlertFetchInput.entries items rt =>
    let parsed := parse_alert_entries items
    (parsed.1,
     { source_url := ANM_ALERTS_RSS_URL
       source_type := SourceType.alert
       fetch_time := now
       success := true
       entries_count := parsed.2.2
       valid_entries := parsed.2.1
       error_message := none
       response_time_ms := rt
       data_quality := assess_quality parsed.2.1 parsed.2.2
       is_fresh := true
       last_modified := none })

end WeatherApp

namespace WeatherApp

/-! ## Scheduler orchestration over the database (scheduler.py) -/

def FORECAST_SOURCE_NAME : String := "ANM Romania Forecasts"
def ALERT_SOURCE_NAME : String := "ANM Romania Alerts"

/-- The whole persistent store: the three tables of database.py.  The
`source_status` table is keyed by its UNIQUE source_url column. -/
structure DB where
  forecasts : ForecastTable
  alerts : List AlertRow
  sources : List (String × SourceStatusRow)
deriving DecidableEq, Repr

/-- The SELECT of `update_source_status`: the row for this source_url. -/
def lookupSource (sources : List (String × SourceStatusRow)) (url : String) :
    Option SourceStatusRow :=
  match sources with
  | [] => none
  | p :: rest => if p.1 == url then some p.2 else lookupSource rest url

/-- Store the upserted row back under its source_url key. -/
def storeSource (sources : List (String × SourceStatusRow)) (url : String)
    (row : SourceStatusRow) : List (String × SourceStatusRow) :=
  match sources with
  | [] => [(url, row)]
  | p :: rest =>
    if p.1 == url then (url, row) :: rest else p :: storeSource rest url row

/-- The FetchResult record of scheduler.py (dataclass FetchResult). -/
structure FetchResult where
  source_url : String
  source_type : String
  source_name : String
  success : Bool
  entries_added : Nat
  total_entries : Nat
  error_message : Option String
  fetch_time : String
  data_quality : String
  response_time_ms : Nat
deriving DecidableEq, Repr

/-- The forecast-storing loop of `_fetch_forecasts` (scheduler.py lines
116-129), counting the inserts that return True. -/
def insert_forecasts_loop (recs : List CityForecast) (t : ForecastTable)
    (now : String) : Nat × ForecastTable :=
  match recs with
  | [] => (0, t)
  | f :: rest =>
    let r1 := insert_forecast t
      { city := f.city
        forecast_date := f.forecast_date
        data_date := f.data_date
        temp_min := f.temp_min
        temp_max := f.temp_max
        conditions := f.conditions
        conditions_code := f.conditions_code
        source_url := f.source_url
        content_hash := f.content_hash } now
    let r2 := insert_forecasts_loop rest r1.2 now
    ((if r1.1 then 1 else 0) + r2.1, r2.2)

/-- Embedding of `WeatherScheduler._fetch_forecasts` (scheduler.py lines
110-175): fetch, store records, update source health from the metadata
(success or failure alike), and build the FetchResult. -/
def sched_fetch_forecasts (db : DB) (input : ForecastFetchInput)
    (now : String) : FetchResult × DB :=
  let fm := fetch_forecasts now input
  let ins := insert_forecasts_loop fm.1 db.forecasts now
  let row := update_source_status (lookupSource db.sources fm.2.source_url)
    fm.2.source_url "forecast" FORECAST_SOURCE_NAME now fm.2.success
    fm.2.data_quality.value fm.2.is_fresh fm.2.valid_entries
    fm.2.error_message fm.2.response_time_ms
  ({ source_url := fm.2.source_url
     source_type := "forecast"
     source_name := FORECAST_SOURCE_NAME
     success := fm.2.success
     entries_added := ins.1
     total_entries := fm.2.entries_count
     error_message := fm.2.error_message
     fetch_time := fm.2.fetch_time
     data_quality := fm.2.data_quality.value
     response_time_ms := fm.2.response_time_ms },
   { forecasts := ins.2
     alerts := db.alerts
     sources := storeSource db.sources fm.2.source_url row })

/-- Embedding of `WeatherScheduler._fetch_alerts` (scheduler.py lines
177-242). -/
def sched_fetch_alerts (db : DB) (input : AlertFetchInput) (now : String) :
    FetchResult × DB :=
  let fm := fetch_alerts now input
  let ins := ingest_alerts fm.1 db.alerts
  let row := update_source_status (lookupSource db.sources fm.2.source_url)
    fm.2.source_url "alert" ALERT_SOURCE_NAME now fm.2.success
    fm.2.data_quality.value fm.2.is_fresh fm.2.valid_entries
    fm.2.error_message fm.2.response_time_ms
  ({ source_url := fm.2.source_url
     source_type := "alert"
     source_name := ALERT_SOURCE_NAME
     success := fm.2.success
     entries_added := ins.1
     total_entries := fm.2.entries_count
     error_message := fm.2.error_message
     fetch_time := fm.2.fetch_time
     data_quality := fm.2.data_quality.value
     response_time_ms := fm.2.response_time_ms },
   { forecasts := db.forecasts
     alerts := ins.2
     sources := storeSource db.sources fm.2.source_url row })

end WeatherApp

namespace WeatherApp

/-- C5: every failing fetch (classified network failure or document-level
validation failure) yields an empty record list and metadata with
success = False, quality = unavailable and zero entry counts — per-entry
parsing is never reached and no forecast row is touched — and the scheduler
still updates the source-health row from this failed outcome.  The alert
path behaves identically. -/
theorem fetch_failure_short_circuit (db : DB) (now : String)
    (fin : ForecastFetchInput) (ain : AlertFetchInput)
    (hf : fin.failed = true) (ha : ain.failed = true) :
    ((fetch_forecasts now fin).1 = [] ∧
      (fetch_forecasts now fin).2.success = false ∧
      (fetch_forecasts now fin).2.data_quality = DataQuality.unavailable ∧
      (fetch_forecasts now fin).2.entries_count = 0 ∧
      (fetch_forecasts now fin).2.valid_entries = 0 ∧
      (sched_fetch_forecasts db fin now).1.success = false ∧
      (sched_fetch_forecasts db fin now).1.entries_added = 0 ∧
      (sched_fetch_forecasts db fin now).2.forecasts = db.forecasts ∧
      (sched_fetch_forecasts db fin now).2.sources
        = storeSource db.sources ANM_FORECAST_XML_URL
            (update_source_status
              (lookupSource db.sources ANM_FORECAST_XML_URL)
              ANM_FORECAST_XML_URL "forecast" FORECAST_SOURCE_NAME now false
              "unavailable" false 0 (fetch_forecasts now fin).2.error_message
              (fetch_forecasts now fin).2.response_time_ms)) ∧
    ((fetch_alerts now ain).1 = [] ∧
      (fetch_alerts now ain).2.success = false ∧
      (fetch_alerts now ain).2.data_quality = DataQuality.unavailable ∧
      (fetch_alerts now ain).2.entries_count = 0 ∧
      (fetch_alerts now ain).2.valid_entries = 0 ∧
      (sched_fetch_alerts db ain now).1.success = false ∧
      (sched_fetch_alerts db ain now).1.entries_added = 0 ∧
      (sched_fetch_alerts db ain now).2.alerts = db.alerts ∧
      (sched_fetch_alerts db ain now).2.sources
        = storeSource db.sources ANM_ALERTS_RSS_URL
            (update_source_status (lookupSource db.sources ANM_ALERTS_RSS_URL)
              ANM_ALERTS_RSS_URL "alert" ALERT_SOURCE_NAME now false
              "unavailable" false 0 (fetch_alerts now ain).2.error_message
              (fetch_alerts now ain).2.response_time_ms)) := by
  constructor
  · cases fin with
    | fetchErr msg elapsed =>
      exact ⟨rfl, rfl, rfl, rfl, rfl, rfl, rfl, rfl, rfl⟩
    | invalidStructure elapsed =>
      exact ⟨rfl, rfl, rfl, rfl, rfl, rfl, rfl, rfl, rfl⟩
    | wellFormed doc rt => cases hf
  · cases ain with
    | fetchErr msg elapsed =>
      exact ⟨rfl, rfl, rfl, rfl, rfl, rfl, rfl, rfl, rfl⟩
    | bozoNoEntries msg elapsed =>
      exact ⟨rfl, rfl, rfl, rfl, rfl, rfl, rfl, rfl, rfl⟩
    | entries items rt => cases ha

/-- Concrete instance of C5: a timed-out forecast fetch and an unreachable
alert source against an empty store. -/
theorem fetch_failure_short_circuit_witness :
    (ForecastFetchInput.fetchErr "Request timed out after 15s" 100).failed
      = true ∧
    (AlertFetchInput.fetchErr "Connection error - source unavailable" 55).failed
      = true ∧
    (fetch_forecasts "t0"
      (ForecastFetchInput.fetchErr "Request timed out after 15s" 100)).1
      = [] ∧
    (sched_fetch_forecasts
      { forecasts := { rows := [], nextId := 1 }, alerts := [], sources := [] }
      (ForecastFetchInput.fetchErr "Request timed out after 15s" 100)
      "t0").2.forecasts
      = ({ rows := [], nextId := 1 } : ForecastTable) ∧
    (sched_fetch_alerts
      { forecasts := { rows := [], nextId := 1 }, alerts := [], sources := [] }
      (AlertFetchInput.fetchErr "Connection error - source unavailable" 55)
      "t0").1.success = false := by
  have T := fetch_failure_short_circuit
    { forecasts := { rows := [], nextId := 1 }, alerts := [], sources := [] }
    "t0" (ForecastFetchInput.fetchErr "Request timed out after 15s" 100)
    (AlertFetchInput.fetchErr "Connection error - source unavailable" 55)
    rfl rfl
  exact ⟨rfl, rfl, T.1.1, T.1.2.2.2.2.2.2.2.1, T.2.2.2.2.2.2.1⟩

/-- No pair of counts ever assesses to STALE. -/
theorem assess_quality_ne_stale (valid total : Nat) :
    assess_quality valid total ≠ DataQuality.stale := by
  unfold assess_quality
  split_ifs <;> simp

/-- C10: for every fetch of forecasts or alerts the metadata's `is_fresh`
flag equals its `success` flag, and the assessed quality is never STALE —
the run's outcome alone determines both; no age/threshold input exists in
the pipeline, so `FORECAST_FRESHNESS_HOURS` / `ALERT_FRESHNESS_HOURS`
(defined above, referenced nowhere else) cannot influence them. -/
theorem fetch_metadata_freshness (now : String) :
    (∀ fin : ForecastFetchInput,
      (fetch_forecasts now fin).2.is_fresh
        = (fetch_forecasts now fin).2.success ∧
      (fetch_forecasts now fin).2.data_quality ≠ DataQuality.stale) ∧
    (∀ ain : AlertFetchInput,
      (fetch_alerts now ain).2.is_fresh = (fetch_alerts now ain).2.success ∧
      (fetch_alerts now ain).2.data_quality ≠ DataQuality.stale) ∧
    (∀ valid total, assess_quality valid total ≠ DataQuality.stale) := by
  refine ⟨?_, ?_, assess_quality_ne_stale⟩
  · intro fin
    cases fin with
    | fetchErr msg elapsed => exact ⟨rfl, by simp [fetch_forecasts]⟩
    | invalidStructure elapsed => exact ⟨rfl, by simp [fetch_forecasts]⟩
    | wellFormed doc rt =>
      exact ⟨rfl, assess_quality_ne_stale _ _⟩
  · intro ain
    cases ain with
    | fetchErr msg elapsed => exact ⟨rfl, by simp [fetch_alerts]⟩
    | bozoNoEntries msg elapsed => exact ⟨rfl, by simp [fetch_alerts]⟩
    | entries items rt =>
      exact ⟨rfl, assess_quality_ne_stale _ _⟩

end WeatherApp

namespace WeatherApp

/-! ## Scheduler in-memory state and sync status (scheduler.py) -/

/-- The SyncStatus record (scheduler.py, dataclass SyncStatus). -/
structure SyncStatus where
  last_sync_time : String
  forecast_healthy : Bool
  alert_healthy : Bool
  overall_quality : String
  cities_available : Nat
  active_alerts : Nat
deriving DecidableEq, Repr

/-- The scheduler's in-memory fields (scheduler.py, `WeatherScheduler`):
the two most recent per-source FetchResults and the last computed
SyncStatus. -/
structure SchedulerState where
  lastForecast : Option FetchResult
  lastAlert : Option FetchResult
  lastSync : Option SyncStatus
deriving DecidableEq, Repr

/-- Embedding of `WeatherScheduler._update_sync_status` (scheduler.py lines
244-265).  `now` is the utcnow reading; `cities`/`alerts` come from the
fetcher's city cache and the database alert count.  Python's
`x and x.success` on an absent result is falsy, modelled as `false`. -/
def update_sync_status (s : SchedulerState) (now : String)
    (cities alerts : Nat) : SchedulerState :=
  let forecast_ok := match s.lastForecast with
    | none => false
    | some r => r.success
  let alert_ok := match s.lastAlert with
    | none => false
    | some r => r.success
  let overall :=
    if forecast_ok && alert_ok then "valid"
    else if forecast_ok || alert_ok then "partial"
    else "unavailable"
  let st : SyncStatus :=
    { last_sync_time := now
      forecast_healthy := forecast_ok
      alert_healthy := alert_ok
      overall_quality := overall
      cities_available := cities
      active_alerts := alerts }
  { s with lastSync := some st }

/-- Effect of one run of `_fetch_forecasts` on the scheduler's in-memory
fields (scheduler.py line 157 / 174: `self._last_forecast_result = result`
— and nothing else; in particular `_last_sync_status` is untouched).  This
is the body of the recurring `forecast_job` registered by `start`. -/
def run_forecast_job (s : SchedulerState) (result : FetchResult) :
    SchedulerState :=
  { s with lastForecast := some result }

/-- Effect of one run of `_fetch_alerts` on the scheduler's in-memory
fields; the body of the recurring `alert_job` registered by `start`. -/
def run_alert_job (s : SchedulerState) (result : FetchResult) :
    SchedulerState :=
  { s with lastAlert := some result }

/-- Effect of `fetch_all` (scheduler.py lines 88-108, also the body of
`trigger_immediate_fetch`): run both per-source fetches, then
`_update_sync_status`. -/
def fetch_all (s : SchedulerState) (forecastResult alertResult : FetchResult)
    (now : String) (cities alerts : Nat) : SchedulerState :=
  update_sync_status
    (run_alert_job (run_forecast_job s forecastResult) alertResult)
    now cities alerts

/-- `WeatherScheduler.get_sync_status`. -/
def get_sync_status (s : SchedulerState) : Option SyncStatus := s.lastSync

/-- A successful and a failed FetchResult used in the C7 counterexample. -/
def okForecastResult : FetchResult :=
  { source_url := "http://www.meteoromania.ro/anm/prognoza-orase-xml.php"
    source_type := "forecast"
    source_name := "ANM Romania Forecasts"
    success := true
    entries_added := 5
    total_entries := 5
    error_message := none
    fetch_time := "t1"
    data_quality := "valid"
    response_time_ms := 40 }

def failedForecastResult : FetchResult :=
  { source_url := "http://www.meteoromania.ro/anm/prognoza-orase-xml.php"
    source_type := "forecast"
    source_name := "ANM Romania Forecasts"
    success := false
    entries_added := 0
    total_entries := 0
    error_message := some "Request timed out after 15s"
    fetch_time := "t2"
    data_quality := "unavailable"
    response_time_ms := 0 }

def okAlertResult : FetchResult :=
  { source_url := "http://www.meteoromania.ro/anm2/avertizari-rss.php"
    source_type := "alert"
    source_name := "ANM Romania Alerts"
    success := true
    entries_added := 2
    total_entries := 2
    error_message := none
    fetch_time := "t1"
    data_quality := "valid"
    response_time_ms := 30 }

end WeatherApp

namespace WeatherApp

/-- C7 counterexample: after a full sync where both sources were healthy, a
run of the recurring forecast job that fails leaves `get_sync_status`
untouched — it still reports forecast_healthy and overall quality "valid"
although the latest forecast outcome failed, so the SyncStatus is *not*
recomputed after every partial sync. -/
theorem sync_status_stale_after_recurring_job :
    (get_sync_status
      (run_forecast_job
        (fetch_all ⟨none, none, none⟩ okForecastResult okAlertResult
          "t1" 40 2)
        failedForecastResult)
      = get_sync_status
          (fetch_all ⟨none, none, none⟩ okForecastResult okAlertResult
            "t1" 40 2)) ∧
    (run_forecast_job
      (fetch_all ⟨none, none, none⟩ okForecastResult okAlertResult "t1" 40 2)
      failedForecastResult).lastForecast = some failedForecastResult ∧
    failedForecastResult.success = false ∧
    (get_sync_status
      (run_forecast_job
        (fetch_all ⟨none, none, none⟩ okForecastResult okAlertResult
          "t1" 40 2)
        failedForecastResult)).map SyncStatus.forecast_healthy = some true ∧
    (get_sync_status
      (run_forecast_job
        (fetch_all ⟨none, none, none⟩ okForecastResult okAlertResult
          "t1" 40 2)
        failedForecastResult)).map SyncStatus.overall_quality
      = some "valid" := by
  exact ⟨rfl, rfl, rfl, rfl, rfl⟩

/-- C7 (amended): the SyncStatus is recomputed by `fetch_all` (hence by
`trigger_immediate_fetch`, which calls it) from the two just-produced
per-source outcomes — overall quality valid when both succeeded, partial
when exactly one, unavailable when neither — while a run of either
recurring per-source job leaves the stored SyncStatus unchanged. -/
theorem sync_status_recomputed_by_fetch_all (s : SchedulerState)
    (rF rA : FetchResult) (now : String) (cities alerts : Nat) :
    get_sync_status (fetch_all s rF rA now cities alerts)
      = some { last_sync_time := now
               forecast_healthy := rF.success
               alert_healthy := rA.success
               overall_quality :=
                 if rF.success && rA.success then "valid"
                 else if rF.success || rA.success then "partial"
                 else "unavailable"
               cities_available := cities
               active_alerts := alerts } ∧
    (∀ r, get_sync_status (run_forecast_job s r) = get_sync_status s) ∧
    (∀ r, get_sync_status (run_alert_job s r) = get_sync_status s) := by
  exact ⟨rfl, fun r => rfl, fun r => rfl⟩

end WeatherApp

namespace WeatherApp

/-! ## Alert description formatting (fetcher.py `_clean_html`,
`_format_alert_description`)

Text is modelled as `List Char`.  The regular expressions of the source are
embedded as explicit scanners with Python `re.search` semantics: leftmost
match, case-insensitive label comparison (ASCII lowering — the labels are
ASCII), greedy `\s*`, lazy `(.+?)`, and the documented backtracking
behaviour at the few positions where it can trigger. -/

/-- Regex-`\s`-class test extended with U+00A0, which Python's Unicode-aware
`\s` and `str.strip` also treat as whitespace (it arises from `&nbsp;`). -/
def isSpaceCh (c : Char) : Bool := isPySpace c || c == '\u00A0'

/-- Case-insensitive char comparison (ASCII lowering; the pattern literals
are ASCII). -/
def chEqCI (a b : Char) : Bool := a.toLower == b.toLower

/-- Match `pat` case-insensitively at the head of `s`, returning the rest. -/
def matchCI : List Char → List Char → Option (List Char)
  | [], s => some s
  | _ :: _, [] => none
  | p :: ps, c :: cs => if chEqCI p c then matchCI ps cs else none

def startsWithCI (pat s : List Char) : Bool := (matchCI pat s).isSome

def dropSpacesL (s : List Char) : List Char := s.dropWhile isSpaceCh

/-- `re.sub(r'<[^>]+>', ' ', text)`: a `<` followed by at least one
non-`>` character and a closing `>` becomes one space; a `<` with no
closing `>` (or an immediate `>`) stays literal.  The state argument holds
the characters seen since an opening `<` (reversed) while a closing `>` is
still possible. -/
def removeTagsGo : Option (List Char) → List Char → List Char
  | none, [] => []
  | none, c :: cs =>
    if c == '<' then removeTagsGo (some []) cs else c :: removeTagsGo none cs
  | some buf, [] => '<' :: buf.reverse
  | some buf, c :: cs =>
    if c == '>' then
      if buf.isEmpty then '<' :: '>' :: removeTagsGo none cs
      else ' ' :: removeTagsGo none cs
    else removeTagsGo (some (c :: buf)) cs

def removeTags (s : List Char) : List Char := removeTagsGo none s

def isHexDigitCh (c : Char) : Bool :=
  c.isDigit || ('a' ≤ c.toLower && c.toLower ≤ 'f')

def hexToNat (cs : List Char) : Nat :=
  cs.foldl (fun n c =>
    n * 16 + (if c.isDigit then c.toNat - '0'.toNat
              else c.toLower.toNat - 'a'.toNat + 10)) 0

/-- The named HTML entities decoded by the model: the subset of the HTML5
table that occurs in this Romanian feed (the source's own comment names
`&icirc;` and `&ndash;`), plus the XML basics.  Lookup is case-sensitive
like the real table. -/
def namedEntities : List (List Char × Char) :=
  [("amp".data, '&'), ("lt".data, '<'), ("gt".data, '>'),
   ("quot".data, '"'), ("apos".data, Char.ofNat 39),
   ("nbsp".data, '\u00A0'), ("icirc".data, 'î'), ("Icirc".data, 'Î'),
   ("acirc".data, 'â'), ("Acirc".data, 'Â'), ("abreve".data, 'ă'),
   ("Abreve".data, 'Ă'), ("scedil".data, 'ş'), ("tcedil".data, 'ţ'),
   ("ndash".data, '–'), ("mdash".data, '—'), ("hellip".data, '…'),
   ("deg".data, '°')]

/-- A numeric character reference; HTML5 maps out-of-range references to
U+FFFD (the C1-control remapping table is not modelled — such references do
not occur in the feed). -/
def charOfCode (n : Nat) : Char :=
  if n.isValidChar then Char.ofNat n else '�'

def entityChar (c : Char) : Bool := c.isAlphanum || c == '#'

/-- Decode the body of one `&…;` reference (without the delimiters). -/
def decodeEntity (nm : List Char) : Option Char :=
  match nm with
  | '#' :: rest =>
    match rest with
    | c :: rest2 =>
      if c == 'x' || c == 'X' then
        if !rest2.isEmpty && rest2.all isHexDigitCh then
          some (charOfCode (hexToNat rest2))
        else none
      else
        if rest.all Char.isDigit then some (charOfCode (digitsToNat rest))
        else none
    | [] => none
  | _ =>
    match namedEntities.find? (fun p => p.1 == nm) with
    | some p => some p.2
    | none => none

/-- `html.unescape`: decode `&name;`, `&#nnn;` and `&#xhh;` references,
leaving unrecognized ones literal.  (Python additionally decodes a set of
references written without the terminating semicolon; the feed always
terminates them, and that behaviour is not modelled.)  The state argument
holds the characters seen since an `&` (reversed). -/
def unescGo : Option (List Char) → List Char → List Char
  | none, [] => []
  | none, c :: cs =>
    if c == '&' then unescGo (some []) cs else c :: unescGo none cs
  | some buf, [] => '&' :: buf.reverse
  | some buf, c :: cs =>
    if c == ';' then
      match decodeEntity buf.reverse with
      | some ch => ch :: unescGo none cs
      | none => ('&' :: buf.reverse ++ [';']) ++ unescGo none cs
    else if c == '&' then ('&' :: buf.reverse) ++ unescGo (some []) cs
    else if entityChar c then unescGo (some (c :: buf)) cs
    else ('&' :: buf.reverse ++ [c]) ++ unescGo none cs

def htmlUnescape (s : List Char) : List Char := unescGo none s

/-- `re.sub(r'\s+', ' ', text)`: collapse every whitespace run to one
space.  The state records whether the previous character was whitespace. -/
def collapseSpacesGo : Bool → List Char → List Char
  | _, [] => []
  | prevSpace, c :: cs =>
    if isSpaceCh c then
      if prevSpace then collapseSpacesGo true cs
      else ' ' :: collapseSpacesGo true cs
    else c :: collapseSpacesGo false cs

/-- Strip leading and trailing whitespace (Python `str.strip`), including
U+00A0. -/
def stripL (cs : List Char) : List Char :=
  ((cs.dropWhile isSpaceCh).reverse.dropWhile isSpaceCh).reverse

/-- Embedding of `ANMFetcher._clean_html` (fetcher.py lines 499-509). -/
def clean_html (text : List Char) : List Char :=
  if text.isEmpty then []
  else stripL (collapseSpacesGo false (htmlUnescape (removeTags text)))

end WeatherApp

namespace WeatherApp

/-- The literal of the `(?:Interval de valabilitate|$)` terminator and of
the trailing-trim `re.sub`. -/
def intervalLit : List Char := "Interval de valabilitate".data

/-- The lazy capture `(.+?)(?:Interval de valabilitate|$)` applied at
`rest`: at least one character, then the shortest extent after which the
terminator literal begins (or the whole rest when it never does). -/
def captureAfterOne : List Char → List Char
  | [] => []
  | c :: cs => if startsWithCI intervalLit (c :: cs) then [] else
      c :: captureAfterOne cs

def captureUntil : List Char → List Char
  | [] => []
  | c :: cs => c :: captureAfterOne cs

/-- The prefix of `r` before the leftmost match of
`\s*Interval de valabilitate` (`none` when the literal never occurs). -/
def trimIntervalGo : List Char → Option (List Char)
  | [] => none
  | c :: cs =>
    if startsWithCI intervalLit (c :: cs) then some []
    else match trimIntervalGo cs with
      | some pre => some (c :: pre)
      | none => none

/-- `re.sub(r'\s*Interval de valabilitate.*$', '', result, IGNORECASE)`:
cut everything from the leftmost occurrence of the literal, together with
the whitespace immediately before it. -/
def trimInterval (r : List Char) : List Char :=
  match trimIntervalGo r with
  | none => r
  | some pre => (pre.reverse.dropWhile isSpaceCh).reverse

/-- Matcher for `LABEL\s*:\s*(.+?)(?:$)` at one position: the label
(case-insensitively), optional whitespace, a colon, then the capture — the
rest of the string, which the lazy `.+?` requires to be non-empty.  (When it
is empty `re.search` keeps scanning; a colon at the end of the cleaned
string leaves no room for a later occurrence of the label, so returning
`none` and letting the scan continue is exact.)  The greedy `\s*` after the
colon keeps leading whitespace out of the Python capture group; the
formatter strips the capture immediately, so the leading whitespace kept
here cannot change any result. -/
def matchLabelColon (label : List Char) (s : List Char) :
    Option (List Char) :=
  match matchCI label s with
  | none => none
  | some s1 =>
    match dropSpacesL s1 with
    | ':' :: rest => if rest.isEmpty then none else some rest
    | _ => none

/-- `re.search`: try the position matcher at every suffix, leftmost first. -/
def searchPat (m : List Char → Option (List Char)) :
    List Char → Option (List Char)
  | [] => m []
  | c :: cs =>
    match m (c :: cs) with
    | some r => some r
    | none => searchPat m cs

/-- Matcher for the third pattern
`Fenomene\s*:\s*conform textelor\s+Mesaj\s*:\s*(.+?)(?:Interval de valabilitate|$)`
at one position. -/
def matchPattern3 (s : List Char) : Option (List Char) :=
  match matchCI "Fenomene".data s with
  | none => none
  | some s1 =>
    match dropSpacesL s1 with
    | ':' :: s2 =>
      match matchCI "conform textelor".data (dropSpacesL s2) with
      | none => none
      | some s3 =>
        match s3 with
        | c :: _ =>
          if isSpaceCh c then
            match matchCI "Mesaj".data (dropSpacesL s3) with
            | none => none
            | some s4 =>
              match dropSpacesL s4 with
              | ':' :: rest =>
                if rest.isEmpty then none else some (captureUntil rest)
              | _ => none
          else none
        | [] => none
    | _ => none

/-- The optional group `(?:MESAJ\s*\d+/\d+\s*)?` of the fallback pattern,
applied where the capture would begin: `some capStart` when the group
matches and leaves at least one character for the lazy `.+?`, mirroring the
regex backtracking — the trailing `\s*` gives back one space, or `\d+`
gives back its last digit, when the group would otherwise swallow the whole
rest; `none` when every way of matching the group leaves nothing (the group
then matches empty and the capture starts unmoved). -/
def mesajGroupSkip (rest1 : List Char) : Option (List Char) :=
  match matchCI "MESAJ".data rest1 with
  | none => none
  | some a1 =>
    let a2 := dropSpacesL a1
    let d1 := a2.takeWhile Char.isDigit
    if d1.isEmpty then none
    else
      match a2.drop d1.length with
      | '/' :: b1 =>
        let d2 := b1.takeWhile Char.isDigit
        if d2.isEmpty then none
        else
          let afterCore := b1.drop d2.length
          let sp := (afterCore.takeWhile isSpaceCh).length
          let remaining := afterCore.drop sp
          if !remaining.isEmpty then some remaining
          else if sp ≥ 1 then some (afterCore.drop (sp - 1))
          else if d2.length ≥ 2 then some (d2.drop (d2.length - 1))
          else none
      | _ => none

/-- Matcher for the fallback pattern
`Mesaj\s*:\s*(?:MESAJ\s*\d+/\d+\s*)?(.+?)(?:Interval de valabilitate|$)`
at one position. -/
def matchMesajFallback (s : List Char) : Option (List Char) :=
  match matchCI "Mesaj".data s with
  | none => none
  | some s1 =>
    match dropSpacesL s1 with
    | ':' :: rest0 =>
      if rest0.isEmpty then none
      else
        let rest1 := dropSpacesL rest0
        match mesajGroupSkip rest1 with
        | some capStart => some (captureUntil capStart)
        | none =>
          if rest1.isEmpty then some (captureUntil rest0)
          else some (captureUntil rest1)
    | _ => none

/-- `result[:500] if len(result) > 500 else result`. -/
def take500 (r : List Char) : List Char :=
  if r.length > 500 then r.take 500 else r

/-- The uniform post-processing of the three listed patterns (fetcher.py
lines 549-556): strip the capture, trim a trailing validity window, keep it
only when longer than 20 characters. -/
def applyListPattern (searchResult : Option (List Char)) :
    Option (List Char) :=
  match searchResult with
  | none => none
  | some g =>
    let result := trimInterval (stripL g)
    if result.length > 20 then some (take500 result) else none

/-- Embedding of `ANMFetcher._format_alert_description` (fetcher.py lines
535-565): the three listed patterns in order, then the `Mesaj :` fallback
pattern, then the first 500 characters of the cleaned text. -/
def format_alert_description (text : List Char) : List Char :=
  let clean := clean_html text
  match applyListPattern
      (searchPat (matchLabelColon "Se vor semnala".data) clean) with
  | some r => r
  | none =>
    match applyListPattern
        (searchPat (matchLabelColon "Fenomene vizate".data) clean) with
    | some r => r
    | none =>
      match applyListPattern (searchPat matchPattern3 clean) with
      | some r => r
      | none =>
        match searchPat matchMesajFallback clean with
        | some g =>
          let result := stripL g
          if result.length > 20 then take500 result else take500 clean
        | none => take500 clean

/-- The fallback pattern yields no capture that survives the 20-character
guard. -/
def mesajFallbackShort (clean : List Char) : Bool :=
  match searchPat matchMesajFallback clean with
  | none => true
  | some g => decide ((stripL g).length ≤ 20)

end WeatherApp

namespace WeatherApp

/-- Truncation to 500 really bounds the length. -/
theorem take500_length_le (r : List Char) : (take500 r).length ≤ 500 := by
  unfold take500
  split_ifs with h
  · simp [List.length_take]
  · omega

/-- Whatever a listed pattern returns has been truncated to 500. -/
theorem applyListPattern_length (o : Option (List Char)) (r : List Char)
    (h : applyListPattern o = some r) : r.length ≤ 500 := by
  cases o with
  | none => cases h
  | some g =>
    simp only [applyListPattern] at h
    by_cases hc : (trimInterval (stripL g)).length > 20
    · rw [if_pos hc] at h
      cases h
      exact take500_length_le _
    · rw [if_neg hc] at h
      cases h

/-- C8 (amended): the formatter tries the three listed label patterns in
order and returns the first capture exceeding 20 characters after stripping
and trimming a trailing validity window; when none survives, it tries the
bulletin `Mesaj :` fallback pattern under the same 20-character guard; only
when that also yields nothing does it return exactly the first 500
characters of the fully cleaned text — and the result never exceeds 500
characters. -/
theorem format_alert_description_spec (text : List Char) :
    (format_alert_description text).length ≤ 500 ∧
    (∀ r, applyListPattern (searchPat (matchLabelColon "Se vor semnala".data)
        (clean_html text)) = some r →
      format_alert_description text = r) ∧
    (applyListPattern (searchPat (matchLabelColon "Se vor semnala".data)
        (clean_html text)) = none →
      ∀ r, applyListPattern (searchPat (matchLabelColon "Fenomene vizate".data)
        (clean_html text)) = some r →
      format_alert_description text = r) ∧
    (applyListPattern (searchPat (matchLabelColon "Se vor semnala".data)
        (clean_html text)) = none →
      applyListPattern (searchPat (matchLabelColon "Fenomene vizate".data)
        (clean_html text)) = none →
      ∀ r, applyListPattern (searchPat matchPattern3 (clean_html text))
        = some r →
      format_alert_description text = r) ∧
    (applyListPattern (searchPat (matchLabelColon "Se vor semnala".data)
        (clean_html text)) = none →
      applyListPattern (searchPat (matchLabelColon "Fenomene vizate".data)
        (clean_html text)) = none →
      applyListPattern (searchPat matchPattern3 (clean_html text)) = none →
      ∀ g, searchPat matchMesajFallback (clean_html text) = some g →
      20 < (stripL g).length →
      format_alert_description text = take500 (stripL g)) ∧
    (applyListPattern (searchPat (matchLabelColon "Se vor semnala".data)
        (clean_html text)) = none →
      applyListPattern (searchPat (matchLabelColon "Fenomene vizate".data)
        (clean_html text)) = none →
      applyListPattern (searchPat matchPattern3 (clean_html text)) = none →
      mesajFallbackShort (clean_html text) = true →
      format_alert_description text = take500 (clean_html text)) := by
  refine ⟨?_, ?_, ?_, ?_, ?_, ?_⟩
  · unfold format_alert_description
    cases h1 : applyListPattern (searchPat
        (matchLabelColon "Se vor semnala".data) (clean_html text)) with
    | some r =>
      simp only [h1]
      exact applyListPattern_length _ _ h1
    | none =>
      simp only [h1]
      cases h2 : applyListPattern (searchPat
          (matchLabelColon "Fenomene vizate".data) (clean_html text)) with
      | some r =>
        simp only [h2]
        exact applyListPattern_length _ _ h2
      | none =>
        simp only [h2]
        cases h3 : applyListPattern (searchPat matchPattern3
            (clean_html text)) with
        | some r =>
          simp only [h3]
          exact applyListPattern_length _ _ h3
        | none =>
          simp only [h3]
          cases h4 : searchPat matchMesajFallback (clean_html text) with
          | some g =>
            simp only [h4]
            split_ifs <;> exact take500_length_le _
          | none =>
            simp only [h4]
            exact take500_length_le _
  · intro r h1
    unfold format_alert_description
    simp only [h1]
  · intro h1 r h2
    unfold format_alert_description
    simp only [h1, h2]
  · intro h1 h2 r h3
    unfold format_alert_description
    simp only [h1, h2, h3]
  · intro h1 h2 h3 g hg hlen
    unfold format_alert_description
    simp only [h1, h2, h3, hg]
    rw [if_pos hlen]
  · intro h1 h2 h3 hshort
    unfold mesajFallbackShort at hshort
    cases hm : searchPat matchMesajFallback (clean_html text) with
    | none =>
      unfold format_alert_description
      simp only [h1, h2, h3, hm]
    | some g =>
      rw [hm] at hshort
      simp only [decide_eq_true_eq] at hshort
      unfold format_alert_description
      simp only [h1, h2, h3, hm]
      rw [if_neg (by omega)]

/-- Concrete instance of the amended C8 on text matching no pattern: the
formatter returns the first 500 characters of the cleaned text. -/
theorem format_alert_description_spec_witness :
    applyListPattern (searchPat (matchLabelColon "Se vor semnala".data)
      (clean_html "hello world".data)) = none ∧
    applyListPattern (searchPat (matchLabelColon "Fenomene vizate".data)
      (clean_html "hello world".data)) = none ∧
    applyListPattern (searchPat matchPattern3 (clean_html "hello world".data))
      = none ∧
    mesajFallbackShort (clean_html "hello world".data) = true ∧
    format_alert_description "hello world".data
      = take500 (clean_html "hello world".data) ∧
    (format_alert_description "hello world".data).length ≤ 500 := by
  have T := format_alert_description_spec "hello world".data
  exact ⟨by decide, by decide, by decide, by decide,
    T.2.2.2.2.2 (by decide) (by decide) (by decide) (by decide), T.1⟩

/-- The description text refuting C8 as stated: none of the three listed
label patterns matches it, yet the result is not the first 500 characters
of the cleaned text, because the fallback `Mesaj :` pattern (absent from
the claim) captures more than 20 characters. -/
def c8Text : List Char := "Mesaj : aaaaaaaaaaaaaaaaaaaaaaaaaaaaaa".data

/-- C8 counterexample: on `c8Text` all three listed patterns yield no
capture exceeding 20 characters, but the formatter returns the fallback
capture (the 30 a's), not the first 500 characters of the cleaned text. -/
theorem format_alert_description_cex :
    applyListPattern (searchPat (matchLabelColon "Se vor semnala".data)
      (clean_html c8Text)) = none ∧
    applyListPattern (searchPat (matchLabelColon "Fenomene vizate".data)
      (clean_html c8Text)) = none ∧
    applyListPattern (searchPat matchPattern3 (clean_html c8Text)) = none ∧
    format_alert_description c8Text
      = "aaaaaaaaaaaaaaaaaaaaaaaaaaaaaa".data ∧
    format_alert_description c8Text ≠ take500 (clean_html c8Text) := by
  refine ⟨by decide, by decide, by decide, by decide, by decide⟩

end WeatherApp
